import Mathlib

deriving instance DecidableEq for Except

/-!
Verification of the opioid-drug-database application (`src/app.py`) against
its specification.

The Python source is a Streamlit app.  Its catalog (`OPIOID_DATA`), page
routing (`main`), list page (`home_page`), detail page (`drug_detail_page`)
and the display wrappers `calculate_properties` / `get_compound_image` are
embedded here directly from the source.  The chemistry itself
(`Chem.MolFromSmiles`, `Descriptors.*`, `Draw.MolToImage`) is an opaque
external-library invocation in the source; the specification documents the
algorithms that stand in for it (StructureParser section 4.1, DescriptorEngine
section 4.2, DepictionRenderer section 4.3), and those components are modelled
here from the spec's words, each marked `Modelled from the spec:` in its doc
comment.
-/

namespace OpioidDB

/-! ## Molecular graph data model (spec section 3) -/

/-- Chemical elements supported by the structural-notation subset
(the organic subset named by spec section 4.1 plus explicit hydrogen). -/
inductive Elem
  | B
  | C
  | N
  | O
  | P
  | S
  | F
  | Cl
  | Br
  | I
  | H
deriving DecidableEq, Repr

/-- An atom of a parsed MolecularGraph: element, formal charge, aromatic
flag, and inferred implicit-hydrogen count (spec section 3). -/
structure Atom where
  elem : Elem
  charge : Int
  aromatic : Bool
  hcount : Nat
deriving DecidableEq, Repr

/-- Bond orders of the notation: single `-`, double `=`, triple `#`,
aromatic `:` or lowercase-adjacency (spec section 4.1). -/
inductive BondOrder
  | single
  | double
  | triple
  | aromatic
deriving DecidableEq, Repr

/-- A bond between two atoms, referenced by their index in the atom list. -/
structure Bond where
  a : Nat
  b : Nat
  order : BondOrder
deriving DecidableEq, Repr

/-- Parsed molecular graph: atoms plus bonds (spec section 3). -/
structure MolecularGraph where
  atoms : List Atom
  bonds : List Bond
deriving DecidableEq, Repr

/-- Parse failures of spec section 4.1 (plus the symmetric unclosed-branch
case at end of input). -/
inductive ParseError
  | unmatchedRingClosure
  | unmatchedBranchClose
  | unclosedBranch
  | unknownElement
  | danglingBond
deriving DecidableEq, Repr

/-! ## StructureParser

Modelled from the spec (section 4.1): the source's `Chem.MolFromSmiles` is an
opaque library call, so the parser is built from the documented algorithm:
a single left-to-right scan with an explicit branch stack, a ring-closure
digit map, bracketed/charged atoms, and implicit-hydrogen inference from a
default-valence table. -/

/-- Atom as collected during the scan; `explicitH` is the bracket-specified
hydrogen count (bracket atoms get no valence-inferred hydrogens). -/
structure PAtom where
  elem : Elem
  charge : Int
  aromatic : Bool
  explicitH : Option Nat
deriving DecidableEq, Repr

/-- Scanner state: atoms and bonds collected so far, the current atom to bond
from, the branch stack, the open ring-closure digits, and a pending explicit
bond symbol (spec section 4.1). -/
structure PState where
  atoms : List PAtom
  bonds : List Bond
  prev : Option Nat
  stack : List (Option Nat)
  rings : List (Nat × Nat)
  pending : Option BondOrder
deriving Repr

/-- Default valences used for implicit-hydrogen inference (spec section 4.1,
"standard valence tables"). -/
def defaultValence : Elem → Nat
  | .B => 3
  | .C => 4
  | .N => 3
  | .O => 2
  | .P => 3
  | .S => 2
  | .F => 1
  | .Cl => 1
  | .Br => 1
  | .I => 1
  | .H => 1

/-- Append a new atom, bonding it to the current atom when one exists; a
pending explicit bond symbol fixes the order, otherwise two aromatic atoms
bond aromatically and all else is a single bond. -/
def addAtom (st : PState) (a : PAtom) : PState :=
  let idx := st.atoms.length
  let newBonds :=
    match st.prev with
    | none => st.bonds
    | some p =>
        let ord :=
          match st.pending with
          | some o => o
          | none =>
              if a.aromatic && (((st.atoms.get? p).map (·.aromatic)).getD false)
              then BondOrder.aromatic else BondOrder.single
        st.bonds ++ [⟨p, idx, ord⟩]
  { st with atoms := st.atoms ++ [a], bonds := newBonds,
            prev := some idx, pending := none }

/-- Record an explicit bond symbol; a bond symbol with no atom before it, or
following another bond symbol, has no two adjacent atoms (spec section 4.1). -/
def setPending (st : PState) (o : BondOrder) : Except ParseError PState :=
  if st.prev.isNone || st.pending.isSome then .error .danglingBond
  else .ok { st with pending := some o }

/-- Ring-closure digit: the first occurrence of a digit opens it at the
current atom; the second occurrence emits a bond between the two matched
atoms (spec section 4.1). -/
def closeRing (st : PState) (d : Nat) : Except ParseError PState :=
  match st.prev with
  | none => .error .danglingBond
  | some cur =>
      match st.rings.find? (fun r => r.1 == d) with
      | some r =>
          .ok { st with bonds := st.bonds ++ [⟨r.2, cur, st.pending.getD .single⟩],
                        rings := st.rings.filter (fun q => q.1 != d),
                        pending := none }
      | none => .ok { st with rings := st.rings ++ [(d, cur)], pending := none }

/-- Decimal digits to a number (for bracket hydrogen counts and charges). -/
def digitsToNat (ds : List Char) : Nat :=
  ds.foldl (fun n c => n * 10 + (c.toNat - 48)) 0

/-- Element token inside a bracket atom; lowercase letters are the aromatic
forms.  An unrecognised token is an unknown element. -/
def bracketElem : List Char → Option (Elem × Bool × List Char)
  | 'C' :: 'l' :: r => some (.Cl, false, r)
  | 'B' :: 'r' :: r => some (.Br, false, r)
  | 'B' :: r => some (.B, false, r)
  | 'C' :: r => some (.C, false, r)
  | 'N' :: r => some (.N, false, r)
  | 'O' :: r => some (.O, false, r)
  | 'P' :: r => some (.P, false, r)
  | 'S' :: r => some (.S, false, r)
  | 'F' :: r => some (.F, false, r)
  | 'I' :: r => some (.I, false, r)
  | 'H' :: r => some (.H, false, r)
  | 'b' :: r => some (.B, true, r)
  | 'c' :: r => some (.C, true, r)
  | 'n' :: r => some (.N, true, r)
  | 'o' :: r => some (.O, true, r)
  | 'p' :: r => some (.P, true, r)
  | 's' :: r => some (.S, true, r)
  | _ => none

/-- Optional hydrogen-count part of a bracket atom: `H` alone means one,
`Hn` means `n`. -/
def bracketHCount : List Char → Nat × List Char
  | 'H' :: r =>
      let ds := r.takeWhile (·.isDigit)
      let rest := r.dropWhile (·.isDigit)
      (if ds = [] then 1 else digitsToNat ds, rest)
  | r => (0, r)

/-- Optional charge part of a bracket atom: repeated `+`/`-` signs or a sign
followed by digits. -/
def bracketCharge : List Char → Int × List Char
  | '+' :: r =>
      let plusses := r.takeWhile (· = '+')
      let r1 := r.dropWhile (· = '+')
      let ds := r1.takeWhile (·.isDigit)
      let r2 := r1.dropWhile (·.isDigit)
      (if ds = [] then 1 + plusses.length else digitsToNat ds, r2)
  | '-' :: r =>
      let minuses := r.takeWhile (· = '-')
      let r1 := r.dropWhile (· = '-')
      let ds := r1.takeWhile (·.isDigit)
      let r2 := r1.dropWhile (·.isDigit)
      (if ds = [] then -(1 + (minuses.length : Int)) else -(digitsToNat ds : Int), r2)
  | r => (0, r)

/-- Bracket atom `[...]`: optional isotope digits, element, ignored chirality
markers, optional hydrogen count, optional charge, closing bracket
(spec section 4.1, "bracketed/charged atoms"). -/
def parseBracket (cs : List Char) : Except ParseError (PAtom × List Char) :=
  let cs1 := cs.dropWhile (·.isDigit)
  match bracketElem cs1 with
  | none => .error .unknownElement
  | some (e, ar, r0) =>
      let r1 := r0.dropWhile (· = '@')
      let (h, r2) := bracketHCount r1
      let (chg, r3) := bracketCharge r2
      match r3 with
      | ']' :: rest => .ok (⟨e, chg, ar, some h⟩, rest)
      | _ => .error .unknownElement

/-- The single left-to-right scan of spec section 4.1.  Fuel counts scanner
steps; every step consumes at least one character, so `length + 1` fuel never
runs out. -/
def parseLoop : Nat → List Char → PState → Except ParseError PState
  | 0, _, _ => .error .unknownElement
  | _ + 1, [], st => .ok st
  | fuel + 1, 'C' :: 'l' :: cs, st => parseLoop fuel cs (addAtom st ⟨.Cl, 0, false, none⟩)
  | fuel + 1, 'B' :: 'r' :: cs, st => parseLoop fuel cs (addAtom st ⟨.Br, 0, false, none⟩)
  | fuel + 1, 'B' :: cs, st => parseLoop fuel cs (addAtom st ⟨.B, 0, false, none⟩)
  | fuel + 1, 'C' :: cs, st => parseLoop fuel cs (addAtom st ⟨.C, 0, false, none⟩)
  | fuel + 1, 'N' :: cs, st => parseLoop fuel cs (addAtom st ⟨.N, 0, false, none⟩)
  | fuel + 1, 'O' :: cs, st => parseLoop fuel cs (addAtom st ⟨.O, 0, false, none⟩)
  | fuel + 1, 'P' :: cs, st => parseLoop fuel cs (addAtom st ⟨.P, 0, false, none⟩)
  | fuel + 1, 'S' :: cs, st => parseLoop fuel cs (addAtom st ⟨.S, 0, false, none⟩)
  | fuel + 1, 'F' :: cs, st => parseLoop fuel cs (addAtom st ⟨.F, 0, false, none⟩)
  | fuel + 1, 'I' :: cs, st => parseLoop fuel cs (addAtom st ⟨.I, 0, false, none⟩)
  | fuel + 1, 'b' :: cs, st => parseLoop fuel cs (addAtom st ⟨.B, 0, true, none⟩)
  | fuel + 1, 'c' :: cs, st => parseLoop fuel cs (addAtom st ⟨.C, 0, true, none⟩)
  | fuel + 1, 'n' :: cs, st => parseLoop fuel cs (addAtom st ⟨.N, 0, true, none⟩)
  | fuel + 1, 'o' :: cs, st => parseLoop fuel cs (addAtom st ⟨.O, 0, true, none⟩)
  | fuel + 1, 'p' :: cs, st => parseLoop fuel cs (addAtom st ⟨.P, 0, true, none⟩)
  | fuel + 1, 's' :: cs, st => parseLoop fuel cs (addAtom st ⟨.S, 0, true, none⟩)
  | fuel + 1, '-' :: cs, st => (setPending st .single).bind (parseLoop fuel cs)
  | fuel + 1, '=' :: cs, st => (setPending st .double).bind (parseLoop fuel cs)
  | fuel + 1, '#' :: cs, st => (setPending st .triple).bind (parseLoop fuel cs)
  | fuel + 1, ':' :: cs, st => (setPending st .aromatic).bind (parseLoop fuel cs)
  | fuel + 1, '(' :: cs, st => parseLoop fuel cs { st with stack := st.prev :: st.stack }
  | fuel + 1, ')' :: cs, st =>
      match st.stack with
      | [] => .error .unmatchedBranchClose
      | p :: rest => parseLoop fuel cs { st with prev := p, stack := rest }
  | fuel + 1, '[' :: cs, st =>
      match parseBracket cs with
      | .error e => .error e
      | .ok (a, rest) => parseLoop fuel rest (addAtom st a)
  | fuel + 1, c :: cs, st =>
      if c.isDigit then (closeRing st (c.toNat - 48)).bind (parseLoop fuel cs)
      else .error .unknownElement

/-- Valence contribution of a bond order (aromatic bonds counted once). -/
def orderVal : BondOrder → Nat
  | .single => 1
  | .double => 2
  | .triple => 3
  | .aromatic => 1

/-- Sum of explicit bond orders incident to atom `i`. -/
def sumOrders (bonds : List Bond) (i : Nat) : Nat :=
  bonds.foldl (fun n b => if b.a = i || b.b = i then n + orderVal b.order else n) 0

/-- Implicit-hydrogen inference (spec section 4.1): default valence minus the
sum of explicit bond orders minus the charge adjustment, clamped at zero;
a bracket-specified hydrogen count overrides the inference. -/
def finalizeAtom (bonds : List Bond) (i : Nat) (a : PAtom) : Atom :=
  { elem := a.elem, charge := a.charge, aromatic := a.aromatic,
    hcount :=
      match a.explicitH with
      | some n => n
      | none => defaultValence a.elem - (sumOrders bonds i + a.charge.natAbs) }

/-- Hydrogen inference over the whole atom list, tracking atom indices. -/
def finalizeAtoms (bonds : List Bond) : Nat → List PAtom → List Atom
  | _, [] => []
  | i, a :: as => finalizeAtom bonds i a :: finalizeAtoms bonds (i + 1) as

/-- End-of-scan checks of spec section 4.1: a trailing bond symbol is a
dangling bond, a remaining ring digit is an unmatched ring closure, and a
remaining branch frame is an unclosed branch. -/
def finishParse (st : PState) : Except ParseError MolecularGraph :=
  if st.pending.isSome then .error .danglingBond
  else if st.rings ≠ [] then .error .unmatchedRingClosure
  else if st.stack ≠ [] then .error .unclosedBranch
  else .ok { atoms := finalizeAtoms st.bonds 0 st.atoms, bonds := st.bonds }

/-- Initial scanner state. -/
def initPState : PState := ⟨[], [], none, [], [], none⟩

/-- Modelled from the spec: `parse(notation) -> MolecularGraph | ParseError`
(spec section 4.1); the source's `Chem.MolFromSmiles` (src/app.py
lines 39, 48) is an opaque library call, so the parser is built from the
spec's documented algorithm.  Pure function of the input string. -/
def parse (s : String) : Except ParseError MolecularGraph :=
  match parseLoop (s.length + 1) s.toList initPState with
  | .error e => .error e
  | .ok st => finishParse st

/-! ## DescriptorEngine

Modelled from the spec (section 4.2): the source's `Descriptors.*` calls
(src/app.py lines 52-57) are opaque library calls, so the descriptor
definitions follow the spec's table verbatim. -/

/-- Atomic weights (for Molecular Weight, including inferred hydrogens). -/
def atomicWeight : Elem → ℚ
  | .B => 1081 / 100
  | .C => 12011 / 1000
  | .N => 14007 / 1000
  | .O => 15999 / 1000
  | .P => 30974 / 1000
  | .S => 3206 / 100
  | .F => 18998 / 1000
  | .Cl => 3545 / 100
  | .Br => 79904 / 1000
  | .I => 126904 / 1000
  | .H => 1008 / 1000

/-- Fixed per-atom lipophilicity contribution table for the additive
group-contribution LogP model (spec section 4.2). -/
def logPContrib : Elem → ℚ
  | .B => 18 / 100
  | .C => 13 / 100
  | .N => -60 / 100
  | .O => -64 / 100
  | .P => -50 / 100
  | .S => 25 / 100
  | .F => 22 / 100
  | .Cl => 53 / 100
  | .Br => 66 / 100
  | .I => 90 / 100
  | .H => 12 / 100

/-- Indices of the atoms bonded to atom `i`. -/
def neighborsIn (bonds : List Bond) (i : Nat) : List Nat :=
  bonds.foldr
    (fun b acc => if b.a = i then b.b :: acc else if b.b = i then b.a :: acc else acc) []

/-- Whether the atom at index `j` is an explicit hydrogen. -/
def isHAt (g : MolecularGraph) (j : Nat) : Bool :=
  match g.atoms.get? j with
  | some a => a.elem == Elem.H
  | none => false

/-- Whether the atom at index `j` exists and is not a hydrogen. -/
def isHeavyAt (g : MolecularGraph) (j : Nat) : Bool :=
  match g.atoms.get? j with
  | some a => a.elem != Elem.H
  | none => false

/-- Total hydrogens on atom `i`: its implicit count plus bonded explicit
hydrogen atoms. -/
def totalH (g : MolecularGraph) (i : Nat) (a : Atom) : Nat :=
  a.hcount + (neighborsIn g.bonds i).countP (isHAt g)

/-- Number of non-hydrogen neighbours of atom `i`. -/
def heavyDegree (g : MolecularGraph) (i : Nat) : Nat :=
  (neighborsIn g.bonds i).countP (isHeavyAt g)

/-- One step of reachability growth along a bond list. -/
def growReach (bonds : List Bond) (s : List Nat) : List Nat :=
  (s ++ s.flatMap (neighborsIn bonds)).dedup

/-- Iterated reachability (the graph has at most `n` atoms, so `n` rounds
saturate). -/
def reachIter (bonds : List Bond) : Nat → List Nat → List Nat
  | 0, s => s
  | n + 1, s => reachIter bonds n (growReach bonds s)

/-- Whether `y` is connected to `x` along `bonds`, within `n` growth rounds. -/
def connectedB (bonds : List Bond) (n x y : Nat) : Bool :=
  (reachIter bonds n [x]).contains y

/-- A bond lies in a ring exactly when its endpoints stay connected after
removing it. -/
def MolecularGraph.bondInRing (g : MolecularGraph) (b : Bond) : Bool :=
  connectedB (g.bonds.erase b) g.atoms.length b.a b.b

/-- Rotatable bond (spec section 4.2): single, non-ring, non-terminal bond
between two non-hydrogen atoms. -/
def rotatableBond (g : MolecularGraph) (b : Bond) : Bool :=
  b.order == BondOrder.single && isHeavyAt g b.a && isHeavyAt g b.b &&
    !(g.bondInRing b) &&
    decide (2 ≤ heavyDegree g b.a) && decide (2 ≤ heavyDegree g b.b)

/-- Fixed per-fragment polar-surface-area contributions for polar atom types
(N, O, and their attached hydrogens; spec section 4.2). -/
def tpsaContrib (g : MolecularGraph) (i : Nat) (a : Atom) : ℚ :=
  match a.elem with
  | .O => if 1 ≤ totalH g i a then 2023 / 100 else 923 / 100
  | .N =>
      if 2 ≤ totalH g i a then 2602 / 100
      else if 1 ≤ totalH g i a then 1203 / 100
      else 324 / 100
  | _ => 0

/-- The fixed descriptor set of spec section 4.2, with exact rational values
for the numeric descriptors and naturals for the counts. -/
structure DescriptorSet where
  molecularWeight : ℚ
  logP : ℚ
  hDonors : Nat
  hAcceptors : Nat
  rotatableBonds : Nat
  polarSurfaceArea : ℚ
deriving DecidableEq, Repr

/-- Failure of the descriptor engine on a graph with zero atoms. -/
inductive DescError
  | emptyStructure
deriving DecidableEq, Repr

/-- Modelled from the spec:
`computeDescriptors(graph) -> DescriptorSet` (spec section 4.2); the source's
`Descriptors.MolWt`/`MolLogP`/`NumHDonors`/`NumHAcceptors`/
`NumRotatableBonds`/`TPSA` calls (src/app.py lines 52-57) are opaque library
calls, so each descriptor follows the spec's definition table.  A graph with
no atoms fails with `EmptyStructureError`. -/
def computeDescriptors (g : MolecularGraph) : Except DescError DescriptorSet :=
  if g.atoms = [] then .error .emptyStructure
  else .ok
    { molecularWeight :=
        (g.atoms.map (fun a => atomicWeight a.elem + (a.hcount : ℚ) * atomicWeight .H)).sum
      logP :=
        (g.atoms.map (fun a => logPContrib a.elem + (a.hcount : ℚ) * logPContrib .H)).sum
      hDonors :=
        g.atoms.enum.countP (fun p =>
          (p.2.elem == Elem.N || p.2.elem == Elem.O) && decide (1 ≤ totalH g p.1 p.2))
      hAcceptors :=
        g.atoms.countP (fun a =>
          (a.elem == Elem.N || a.elem == Elem.O) && decide (a.charge ≤ 0))
      rotatableBonds := g.bonds.countP (rotatableBond g)
      polarSurfaceArea := (g.atoms.enum.map (fun p => tpsaContrib g p.1 p.2)).sum }

/-! ## DepictionRenderer

Modelled from the spec (section 4.3): the source's `Draw.MolToImage` call
(src/app.py line 41) is an opaque library call.  The layout here assigns
every atom a deterministic zig-zag chain coordinate (standard bond-angle
alternation), scaled and centred into the requested (width, height) with a
fixed margin; bonds become line marks between their endpoint coordinates.
The geometric refinements of section 4.3 (ring perception, component tiling)
affect only where marks land, not the rendered size or the set of atoms
depicted, which is what the spec's testable property constrains. -/

/-- A depicted atom: its element label and 2D coordinate. -/
structure AtomMark where
  elem : Elem
  x : ℚ
  y : ℚ
deriving DecidableEq, Repr

/-- A depicted bond: endpoint coordinates and order (drawn as single, double,
triple or aromatic line work). -/
structure BondMark where
  x1 : ℚ
  y1 : ℚ
  x2 : ℚ
  y2 : ℚ
  order : BondOrder
deriving DecidableEq, Repr

/-- The rasterized depiction: its pixel dimensions plus the atom and bond
marks placed inside them. -/
structure RasterImage where
  width : Nat
  height : Nat
  atomMarks : List AtomMark
  bondMarks : List BondMark
deriving DecidableEq, Repr

/-- Failure of the renderer to complete a layout. -/
inductive RenderError
  | layoutFailure
deriving DecidableEq, Repr

/-- Deterministic placement of each atom, in input order, on a zig-zag chain
scaled into the box with a margin of 10. -/
def placeAtoms (w h : ℚ) (count : Nat) : Nat → List Atom → List AtomMark
  | _, [] => []
  | i, a :: as =>
      { elem := a.elem,
        x := if count ≤ 1 then w / 2
             else 10 + (i : ℚ) * ((w - 20) / ((count : ℚ) - 1)),
        y := 10 + ((i % 2 : Nat) : ℚ) * (h - 20) } :: placeAtoms w h count (i + 1) as

/-- Coordinate of the mark of atom `i` (origin for an out-of-range index,
which no bond produced by `parse` refers to). -/
def markPos (marks : List AtomMark) (i : Nat) : ℚ × ℚ :=
  match marks.get? i with
  | some m => (m.x, m.y)
  | none => (0, 0)

/-- Modelled from the spec:
`render(graph, width, height) -> RasterImage` (spec section 4.3); the
source's `Draw.MolToImage(mol, size=(400, 300))` (src/app.py line 41) is an
opaque library call.  Every atom of the graph receives a mark, and the image
takes exactly the requested dimensions. -/
def render (g : MolecularGraph) (w h : Nat) : Except RenderError RasterImage :=
  let marks := placeAtoms (w : ℚ) (h : ℚ) g.atoms.length 0 g.atoms
  .ok { width := w, height := h, atomMarks := marks,
        bondMarks := g.bonds.map (fun b =>
          let pa := markPos marks b.a
          let pb := markPos marks b.b
          ⟨pa.1, pa.2, pb.1, pb.2, b.order⟩) }

/-! ## Data model: SubstanceRecord and the catalog (src/app.py lines 14-30) -/

/-- A substance record, one entry of `OPIOID_DATA` (src/app.py lines 14-30). -/
structure Drug where
  name : String
  iupac : String
  smiles : String
  formula : String
  weight : ℚ
  category : String
  uses : List String
  toxicity : String
  symptoms : List String
  side_effects : List String
  precautions : List String
  pubchem_cid : String
deriving DecidableEq, Repr

/-- The single seeded record "Morphine" (src/app.py lines 15-28). -/
def morphine : Drug :=
  { name := "Morphine"
    iupac := "(5α,6α)-7,8-Didehydro-4,5-epoxy-17-methylmorphinan-3,6-diol"
    smiles := "CN1CCC23C4C1CC5=C2C(=C(C=C5)O)OC3C(C=C4)O"
    formula := "C17H19NO3"
    weight := 28534 / 100
    category := "Natural Opioid"
    uses := ["Severe pain management", "Palliative care"]
    toxicity := "High - Respiratory depression, addiction potential"
    symptoms := ["Drowsiness", "Constipation", "Nausea",
                 "Respiratory depression", "Coma"]
    side_effects := ["Dependence", "Tolerance", "Withdrawal symptoms"]
    precautions := ["Avoid alcohol", "Monitor respiratory function",
                    "Risk of addiction"]
    pubchem_cid := "5288826" }

/-- `OPIOID_DATA`: the catalog, a static list built once (src/app.py line 14). -/
def OPIOID_DATA : List Drug := [morphine]

/-- A record identical to Morphine's but named by the empty string, used to
probe how the detail view treats an empty name. -/
def emptyNameDrug : Drug := { morphine with name := "" }

/-- Insertion of a string into a ≤-sorted list (helper for `sortNames`). -/
def insertName (x : String) : List String → List String
  | [] => [x]
  | y :: ys => if x ≤ y then x :: y :: ys else y :: insertName x ys

/-- Case-sensitive insertion sort over strings: the `sorted(...)` call of
src/app.py line 69. -/
def sortNames : List String → List String
  | [] => []
  | x :: xs => insertName x (sortNames xs)

/-- `drug_names` of the home page: the sorted catalog names
(src/app.py line 69). -/
def listNames (data : List Drug) : List String :=
  sortNames (data.map (·.name))

/-- `next((d for d in OPIOID_DATA if d["name"] == drug_name), None)`:
first record whose name equals the query exactly (src/app.py line 85). -/
def findByName (data : List Drug) (name : String) : Option Drug :=
  data.find? (fun d => d.name == name)

/-! ## Display wrappers over the chemistry (src/app.py lines 38-58) -/

/-- A displayed property value: a numeric value rounded for display together
with its unit suffix, or an integer count shown as-is
(src/app.py lines 51-58). -/
inductive PropValue
  | text (value : ℚ) (unit : String)
  | count (n : Nat)
deriving DecidableEq, Repr

/-- Rounding to 2 decimal places for display (the `:.2f` format of
src/app.py lines 52, 53, 57). -/
def round2 (q : ℚ) : ℚ := ((⌊q * 100 + 1 / 2⌋ : Int) : ℚ) / 100

/-- The dict built at src/app.py lines 51-58: the six fixed descriptors in
source order, numeric ones rounded to 2 decimals with their unit, counts as
plain integers. -/
def displayProps (d : DescriptorSet) : List (String × PropValue) :=
  [("Molecular Weight", .text (round2 d.molecularWeight) "g/mol"),
   ("LogP", .text (round2 d.logP) ""),
   ("H-Bond Donors", .count d.hDonors),
   ("H-Bond Acceptors", .count d.hAcceptors),
   ("Rotatable Bonds", .count d.rotatableBonds),
   ("Polar Surface Area", .text (round2 d.polarSurfaceArea) "Å²")]

/-- `calculate_properties` (src/app.py lines 47-58): on a failed parse it
returns the empty dict with no error surfaced (`if not mol: return {}`);
otherwise it builds the six-descriptor display dict.  The descriptor engine's
empty-structure failure likewise yields the empty dict, matching the source's
silent fallback. -/
def calculate_properties (smiles : String) : List (String × PropValue) :=
  match parse smiles with
  | .error _ => []
  | .ok g =>
      match computeDescriptors g with
      | .error _ => []
      | .ok d => displayProps d

/-- `get_compound_image` (src/app.py lines 38-45): parse, then draw at the
fixed size (400, 300); on a failed parse it returns `None` with no error
surfaced.  The base64 PNG encoding of the source is display glue; the image
itself is modelled. -/
def get_compound_image (smiles : String) : Option RasterImage :=
  match parse smiles with
  | .error _ => none
  | .ok g =>
      match render g 400 300 with
      | .error _ => none
      | .ok img => some img

/-! ## Navigation (src/app.py lines 63-74, 79-88, 136-138, 143-156)

The session holds `current_drug`, either absent/`None` or a name string;
`main` (lines 150-156) routes on Python truthiness of that value, so both
`None` and the empty string show the home page. -/

/-- The two pages `main` can dispatch to (src/app.py lines 153-156). -/
inductive Page
  | home
  | detail
deriving DecidableEq, Repr

/-- Routing of `main` (src/app.py lines 153-156): the condition
`if st.session_state.current_drug:` is Python truthiness, so `None` and `""`
both go to the home page. -/
def route (sess : Option String) : Page :=
  match sess with
  | none => .home
  | some s => if s = "" then .home else .detail

/-- Initial session state: `main` seeds `current_drug` with `None`
(src/app.py lines 150-151), so the session starts on the list view. -/
def navInit : Option String := none

/-- User actions that change the navigation state: the "View Drug Details"
button of the home page (src/app.py lines 72-74) and the "Back to Home"
button of the detail page (src/app.py lines 136-138). -/
inductive NavEvent
  | select (id : String)
  | back
deriving DecidableEq, Repr

/-- Navigation failures surfaced to the user. -/
inductive NavError
  | notFound
deriving DecidableEq, Repr

/-- One navigation step.  On the home page the selectbox (src/app.py line 70)
offers exactly the sorted catalog names, so choosing an id outside the
catalog is impossible in the UI; it is embedded as a rejected transition that
leaves the state unchanged and surfaces `notFound` (the guard shown as "Drug
information not available" at src/app.py lines 85-88).  A successful select
stores the name (line 73); "Back to Home" deletes `current_drug` (line 137),
after which `main` reseeds it with `None` (lines 150-151).  Buttons absent
from the displayed page are no-ops. -/
def navStep (data : List Drug) (s : Option String) (e : NavEvent) :
    Option String × Option NavError :=
  match route s, e with
  | .home, .select id =>
      if id ∈ listNames data then (some id, none) else (s, some .notFound)
  | .home, .back => (s, none)
  | .detail, .select _ => (s, none)
  | .detail, .back => (none, none)

/-- Running a sequence of user actions from the initial state. -/
def navRun (data : List Drug) (es : List NavEvent) : Option String :=
  es.foldl (fun s e => (navStep data s e).1) navInit

/-- The navigation invariant: a stored selection names a catalog record. -/
def NavInv (data : List Drug) (s : Option String) : Prop :=
  ∀ name, s = some name → ∃ d ∈ data, d.name = name

/-- What `drug_detail_page` shows (src/app.py lines 79-88): the "No drug
selected" error for a falsy selection, "Drug information not available" for a
name missing from the catalog, or the full profile of the resolved record. -/
inductive DetailRender
  | noSelection
  | notAvailable
  | profile (d : Drug)
deriving DecidableEq, Repr

/-- `drug_detail_page` (src/app.py lines 79-88): reads `current_drug`
(falsy when `None` or `""`, giving "No drug selected" and returning at once),
then resolves the name via the exact-match lookup of line 85, erroring with
"Drug information not available" when nothing matches. -/
def drug_detail_page (data : List Drug) (sess : Option String) : DetailRender :=
  match sess with
  | none => .noSelection
  | some s =>
      if s = "" then .noSelection
      else
        match findByName data s with
        | none => .notAvailable
        | some d => .profile d

/-! ## Concrete test vectors -/

/-- The graph `parse` produces for `"CCO"`: two carbons and an oxygen in a
chain, hydrogens inferred as 3, 2 and 1. -/
def ethanolGraph : MolecularGraph :=
  { atoms := [⟨.C, 0, false, 3⟩, ⟨.C, 0, false, 2⟩, ⟨.O, 0, false, 1⟩],
    bonds := [⟨0, 1, .single⟩, ⟨1, 2, .single⟩] }

/-- The descriptor set of the ethanol graph. -/
def ethanolDescriptors : DescriptorSet :=
  { molecularWeight := 46069 / 1000
    logP := 34 / 100
    hDonors := 1
    hAcceptors := 1
    rotatableBonds := 0
    polarSurfaceArea := 2023 / 100 }

/-- The image `render` produces for the ethanol graph at (400, 300). -/
def renderedEthanol : RasterImage :=
  { width := 400, height := 300,
    atomMarks := [⟨.C, 10, 10⟩, ⟨.C, 200, 290⟩, ⟨.O, 390, 10⟩],
    bondMarks := [⟨10, 10, 200, 290, .single⟩, ⟨200, 290, 390, 10, .single⟩] }

/-! ## Helper lemmas -/

theorem mem_insertName (x a : String) (l : List String) :
    a ∈ insertName x l ↔ a = x ∨ a ∈ l := by
  induction l with
  | nil => simp [insertName]
  | cons y ys ih =>
    unfold insertName
    by_cases h : x ≤ y
    · rw [if_pos h]
      simp only [List.mem_cons]
    · rw [if_neg h]
      simp only [List.mem_cons, ih]
      tauto

theorem mem_sortNames (a : String) (l : List String) :
    a ∈ sortNames l ↔ a ∈ l := by
  induction l with
  | nil => simp [sortNames]
  | cons x xs ih => simp [sortNames, mem_insertName, ih]

theorem navStep_preserves_inv (data : List Drug) (s : Option String)
    (e : NavEvent) (h : NavInv data s) : NavInv data (navStep data s e).1 := by
  unfold navStep
  cases hr : route s <;> cases e <;> intro name hn
  case home.select id =>
    by_cases hm : id ∈ listNames data
    · simp only [hm, if_pos] at hn
      cases hn
      rw [listNames, mem_sortNames] at hm
      simp only [List.mem_map] at hm
      obtain ⟨d, hd, hdn⟩ := hm
      exact ⟨d, hd, hdn⟩
    · simp only [hm, if_neg, not_false_iff] at hn
      exact h name hn
  case home.back => exact h name hn
  case detail.select id => exact h name hn
  case detail.back => simp at hn

theorem navRun_inv (data : List Drug) (es : List NavEvent) (s : Option String)
    (h : NavInv data s) :
    NavInv data (es.foldl (fun s e => (navStep data s e).1) s) := by
  induction es generalizing s with
  | nil => exact h
  | cons e es ih => exact ih _ (navStep_preserves_inv data s e h)

theorem placeAtoms_map_elem (w h : ℚ) (c : Nat) (i : Nat) (as : List Atom) :
    (placeAtoms w h c i as).map (·.elem) = as.map (·.elem) := by
  induction as generalizing i with
  | nil => rfl
  | cons a as ih => simp [placeAtoms, ih]

theorem parse_CCO_eq : parse "CCO" = Except.ok ethanolGraph := by decide

theorem computeDescriptors_ethanol_eq :
    computeDescriptors ethanolGraph = Except.ok ethanolDescriptors := by
  simp [computeDescriptors, ethanolGraph, ethanolDescriptors, atomicWeight, logPContrib,
        tpsaContrib, totalH, neighborsIn, isHAt, isHeavyAt, heavyDegree, rotatableBond,
        MolecularGraph.bondInRing, connectedB, reachIter, growReach, List.enum]
  norm_num

theorem render_ethanol_eq :
    render ethanolGraph 400 300 = Except.ok renderedEthanol := by
  simp [render, placeAtoms, markPos, ethanolGraph, renderedEthanol]
  norm_num

/-! ## Claims -/

/-- C1: at the malformed structural notation `"C1CC"` (unmatched ring-closure
digit) the parser does fail with an explicit ParseError and no graph, hence no
descriptor set or depiction, is produced from it — but the source's callers
swallow the failure instead of propagating it: `calculate_properties` returns
the empty dict (src/app.py lines 49-50) and `get_compound_image` returns
`None` (src/app.py line 45), with no error surfaced to the caller.  This
records the divergence the spec itself flags as a defect (spec section 9). -/
theorem C1_malformed_parse_silently_swallowed :
    parse "C1CC" = Except.error ParseError.unmatchedRingClosure ∧
    calculate_properties "C1CC" = [] ∧
    get_compound_image "C1CC" = none := by
  refine ⟨by decide, rfl, rfl⟩

/-- C2: the notation `"CCO"` parses to the ethanol-equivalent graph (two
carbons, one oxygen, inferred hydrogens 3/2/1), and its descriptors give
Molecular Weight rounding to 46.07, Rotatable Bonds 0, H-Bond Donors 1 and
H-Bond Acceptors 1. -/
theorem C2_ethanol_descriptor_values :
    parse "CCO" = Except.ok ethanolGraph ∧
    computeDescriptors ethanolGraph = Except.ok ethanolDescriptors ∧
    round2 ethanolDescriptors.molecularWeight = 4607 / 100 ∧
    ethanolDescriptors.rotatableBonds = 0 ∧
    ethanolDescriptors.hDonors = 1 ∧
    ethanolDescriptors.hAcceptors = 1 := by
  refine ⟨parse_CCO_eq, computeDescriptors_ethanol_eq, ?_, rfl, rfl, rfl⟩
  simp [round2, ethanolDescriptors]
  norm_num

/-- C3: every navigation state reachable from the initial state by user
actions is exactly `none` (ListView) or `some name` (DetailView), and
whenever a selection is present it names an existing catalog record; no
operation, the detail-view error paths included, leaves a dangling
selection. -/
theorem C3_reachable_selection_valid (es : List NavEvent) (name : String)
    (h : navRun OPIOID_DATA es = some name) :
    ∃ d ∈ OPIOID_DATA, d.name = name := by
  have hinv : NavInv OPIOID_DATA (navRun OPIOID_DATA es) :=
    navRun_inv OPIOID_DATA es navInit (fun n hn => by simp [navInit] at hn)
  exact hinv name h

/-- Witness for C3: after selecting "Morphine" the selection names the seeded
catalog record. -/
theorem C3_reachable_selection_valid_witness :
    ∃ d ∈ OPIOID_DATA, d.name = "Morphine" :=
  C3_reachable_selection_valid [NavEvent.select "Morphine"] "Morphine" (by decide)

/-- C4: from the list view, `select(id)` transitions to DetailView(id) with no
error when `id` is in the catalog, and when `id` is not in the catalog the
transition is rejected with NotFound and the state is unchanged. -/
theorem C4_select_transition (s : Option String) (id : String)
    (hs : route s = Page.home) :
    (id ∈ listNames OPIOID_DATA →
        navStep OPIOID_DATA s (NavEvent.select id) = (some id, none) ∧
        route (some id) = Page.detail) ∧
    (id ∉ listNames OPIOID_DATA →
        navStep OPIOID_DATA s (NavEvent.select id) = (s, some NavError.notFound)) := by
  constructor
  · intro hm
    have hid : id = "Morphine" := by
      have hl : listNames OPIOID_DATA = ["Morphine"] := by decide
      rw [hl] at hm
      simpa using hm
    refine ⟨by simp [navStep, hs, hm], by rw [hid]; decide⟩
  · intro hm
    simp [navStep, hs, hm]

/-- Witness for C4: from the initial list view, selecting "Morphine" reaches
its detail view and selecting the absent "Aspirin" is rejected with NotFound
and no state change. -/
theorem C4_select_transition_witness :
    (navStep OPIOID_DATA none (NavEvent.select "Morphine") = (some "Morphine", none) ∧
     route (some "Morphine") = Page.detail) ∧
    navStep OPIOID_DATA none (NavEvent.select "Aspirin") = (none, some NavError.notFound) :=
  ⟨(C4_select_transition none "Morphine" rfl).1 (by decide),
   (C4_select_transition none "Aspirin" rfl).2 (by decide)⟩

/-- C5: `computeDescriptors` fails with EmptyStructureError on every graph
with zero atoms, and succeeds with a DescriptorSet on every graph with at
least one atom. -/
theorem C5_empty_structure_error (g : MolecularGraph) :
    (g.atoms = [] → computeDescriptors g = Except.error DescError.emptyStructure) ∧
    (g.atoms ≠ [] → ∃ ds, computeDescriptors g = Except.ok ds) := by
  constructor
  · intro h
    unfold computeDescriptors
    rw [if_pos h]
  · intro h
    exact ⟨_, by unfold computeDescriptors; rw [if_neg h]⟩

/-- Witness for C5: the empty graph fails with EmptyStructureError and the
ethanol graph succeeds. -/
theorem C5_empty_structure_error_witness :
    computeDescriptors ⟨[], []⟩ = Except.error DescError.emptyStructure ∧
    ∃ ds, computeDescriptors ethanolGraph = Except.ok ds :=
  ⟨(C5_empty_structure_error ⟨[], []⟩).1 rfl,
   (C5_empty_structure_error ethanolGraph).2 (by decide)⟩

/-- C6: for every successfully parsed graph whose descriptors are computed,
the displayed property set contains exactly the six fixed descriptors in
source order, each numeric value rounded to 2 decimal places for display and
the three count descriptors given as integers. -/
theorem C6_six_descriptors (smiles : String) (g : MolecularGraph)
    (ds : DescriptorSet) (hp : parse smiles = Except.ok g)
    (hd : computeDescriptors g = Except.ok ds) :
    calculate_properties smiles =
      [("Molecular Weight", PropValue.text (round2 ds.molecularWeight) "g/mol"),
       ("LogP", PropValue.text (round2 ds.logP) ""),
       ("H-Bond Donors", PropValue.count ds.hDonors),
       ("H-Bond Acceptors", PropValue.count ds.hAcceptors),
       ("Rotatable Bonds", PropValue.count ds.rotatableBonds),
       ("Polar Surface Area", PropValue.text (round2 ds.polarSurfaceArea) "Å²")] := by
  simp [calculate_properties, hp, hd, displayProps]

/-- Witness for C6: the display list for `"CCO"`. -/
theorem C6_six_descriptors_witness :
    calculate_properties "CCO" =
      [("Molecular Weight", PropValue.text (round2 ethanolDescriptors.molecularWeight) "g/mol"),
       ("LogP", PropValue.text (round2 ethanolDescriptors.logP) ""),
       ("H-Bond Donors", PropValue.count ethanolDescriptors.hDonors),
       ("H-Bond Acceptors", PropValue.count ethanolDescriptors.hAcceptors),
       ("Rotatable Bonds", PropValue.count ethanolDescriptors.rotatableBonds),
       ("Polar Surface Area", PropValue.text (round2 ethanolDescriptors.polarSurfaceArea) "Å²")] :=
  C6_six_descriptors "CCO" ethanolGraph ethanolDescriptors parse_CCO_eq
    computeDescriptors_ethanol_eq

/-- C7: `findByName` is an exact-match lookup over the catalog: any hit is a
catalog record whose name equals the query, a query matching no record
returns none, and on the seeded catalog "Morphine" resolves to its record
while "Aspirin" gives NotFound. -/
theorem C7_findByName_exact :
    (∀ name d, findByName OPIOID_DATA name = some d → d ∈ OPIOID_DATA ∧ d.name = name) ∧
    (∀ name, (∀ d ∈ OPIOID_DATA, d.name ≠ name) → findByName OPIOID_DATA name = none) ∧
    findByName OPIOID_DATA "Morphine" = some morphine ∧
    findByName OPIOID_DATA "Aspirin" = none := by
  refine ⟨?_, ?_, rfl, rfl⟩
  · intro name d h
    unfold findByName at h
    have h1 := List.find?_some h
    have h2 := List.mem_of_find?_eq_some h
    exact ⟨h2, by simpa using h1⟩
  · intro name h
    unfold findByName
    rw [List.find?_eq_none]
    intro d hd
    simpa using h d hd

/-- Witness for C7: the hit at "Morphine" is the seeded record with the
queried name, and the unmatched query "" returns none. -/
theorem C7_findByName_exact_witness :
    (morphine ∈ OPIOID_DATA ∧ morphine.name = "Morphine") ∧
    findByName OPIOID_DATA "" = none :=
  ⟨C7_findByName_exact.1 "Morphine" morphine rfl,
   C7_findByName_exact.2.1 "" (by decide)⟩

/-- C8: the navigation state machine starts on the list view; `back()` from
every detail view returns to the list view, and `back()` from the list view
is a no-op with no error. -/
theorem C8_back_transitions (data : List Drug) (s : Option String) :
    route navInit = Page.home ∧
    (route s = Page.detail → navStep data s NavEvent.back = (none, none)) ∧
    (route s = Page.home → navStep data s NavEvent.back = (s, none)) := by
  refine ⟨rfl, ?_, ?_⟩
  · intro h
    simp [navStep, h]
  · intro h
    simp [navStep, h]

/-- Witness for C8: back from Morphine's detail view reaches the list view;
back on the initial list view changes nothing. -/
theorem C8_back_transitions_witness :
    route navInit = Page.home ∧
    navStep OPIOID_DATA (some "Morphine") NavEvent.back = (none, none) ∧
    navStep OPIOID_DATA navInit NavEvent.back = (navInit, none) :=
  ⟨(C8_back_transitions OPIOID_DATA none).1,
   (C8_back_transitions OPIOID_DATA (some "Morphine")).2.1 (by decide),
   (C8_back_transitions OPIOID_DATA navInit).2.2 (by decide)⟩

/-- C9: whenever `render` produces an image, its dimensions equal exactly the
requested width and height, and every atom of the input graph appears in the
depiction, in order and with its element label (no atom is silently
dropped). -/
theorem C9_render_dims_and_atoms (g : MolecularGraph) (w h : Nat)
    (img : RasterImage) (hr : render g w h = Except.ok img) :
    img.width = w ∧ img.height = h ∧
    img.atomMarks.map (·.elem) = g.atoms.map (·.elem) := by
  simp only [render, Except.ok.injEq] at hr
  subst hr
  exact ⟨rfl, rfl, placeAtoms_map_elem _ _ _ 0 g.atoms⟩

/-- Witness for C9: the ethanol graph rendered at (400, 300). -/
theorem C9_render_dims_and_atoms_witness :
    render ethanolGraph 400 300 = Except.ok renderedEthanol ∧
    renderedEthanol.width = 400 ∧ renderedEthanol.height = 300 ∧
    renderedEthanol.atomMarks.map (·.elem) = ethanolGraph.atoms.map (·.elem) :=
  ⟨render_ethanol_eq,
   C9_render_dims_and_atoms ethanolGraph 400 300 renderedEthanol render_ethanol_eq⟩

/-- C10: a selected empty-string name makes the detail view report "No drug
selected" and render nothing else, so a catalog record named by the empty
string can never be displayed in the detail view, even after being
selected. -/
theorem C10_empty_name_never_displayed (data : List Drug) (sess : Option String)
    (d : Drug) (hname : d.name = "") :
    drug_detail_page data (some "") = DetailRender.noSelection ∧
    drug_detail_page data sess ≠ DetailRender.profile d := by
  constructor
  · simp [drug_detail_page]
  · intro hcontra
    cases sess with
    | none => simp [drug_detail_page] at hcontra
    | some s =>
      by_cases hs : s = ""
      · simp [drug_detail_page, hs] at hcontra
      · simp only [drug_detail_page, if_neg hs] at hcontra
        cases hf : findByName data s with
        | none =>
          rw [hf] at hcontra
          simp at hcontra
        | some d2 =>
          rw [hf] at hcontra
          simp at hcontra
          have h1 := List.find?_some (show data.find? (fun x => x.name == s) = some d2 from hf)
          have hdn : d2.name = s := by simpa using h1
          rw [hcontra] at hdn
          exact hs (hdn.symm.trans hname)

/-- Witness for C10: the record `emptyNameDrug` (name `""`) is never shown by
the detail page, and an empty-string selection reports no selection. -/
theorem C10_empty_name_never_displayed_witness :
    drug_detail_page OPIOID_DATA (some "") = DetailRender.noSelection ∧
    drug_detail_page OPIOID_DATA (some "Morphine") ≠ DetailRender.profile emptyNameDrug :=
  C10_empty_name_never_displayed OPIOID_DATA (some "Morphine") emptyNameDrug rfl

end OpioidDB
